import Mathlib

/-!
# Verification of the graphqltogo subscription engine

A shallow embedding of the `graphqltogo` Go client library: the subscription
registry, the WebSocket connection lifecycle, the message pump dispatch, and
the reconnect/resubscribe machinery, together with the stateless `Execute`
envelope handling.

The embedding follows the Go sources: `client.go`, `websocket.go`
(message pump, reconnect, resubscribe) and the revisions of the same package
whose file names are unknown, notably the one holding `openWebSocket`,
`subscribe`, `unsubscribe`, `handleReadError`, `handleCompleteMessage` and
`resubscribeAll` (part_001), and the one holding `Execute` and the
`Subscription`/`GraphQLClient` records (part_004).

Concurrency is modelled sequentially: every operation is a function from a
client state to a client state plus a list of observable events (frames
written to the socket, values delivered into subscription sinks, sinks being
closed, the auth-error handler firing, reconnect attempts, pump goroutine
starts, connection closure).  Outcomes of network sends and of payload
decoding, which in Go are runtime errors, are supplied as explicit boolean
oracles.
-/

namespace GraphqlToGo

/-- A subscription record, from `Subscription` in part_004 (and the
`subscription` struct of client.go): the stored query text and variables.
The Go struct also stores the sink channel and a result-factory closure;
here the sink is identified by the subscription id (deliveries and closures
appear as events naming that id), and the result factory is not needed by
any claim. -/
structure Subscription where
  query : String
  vars : List (String × String)
deriving Repr, DecidableEq

/-- The mutable fields of `GraphQLClient` (part_004 lines 22-34) that the
claims are about: `wsConn` (whether a connection handle is recorded),
`authHeader`, whether an `authErrorHandler` is set, the atomic id `counter`,
and the `subs` registry, modelled as an association list from subscription
id to record. -/
structure ClientState where
  wsConn : Bool
  authHeader : String
  authErrorHandlerSet : Bool
  counter : Nat
  subs : List (String × Subscription)
deriving Repr, DecidableEq

/-- `NewClient` (part_004 lines 44-54): no connection, empty registry,
counter at zero. -/
def initialState : ClientState :=
  { wsConn := false, authHeader := "", authErrorHandlerSet := false
    counter := 0, subs := [] }

/-- Client-to-server wire frames built by the engine. -/
inductive Frame where
  | connectionInit (auth : String)
  | subscribeF (id : String) (query : String) (vars : List (String × String))
  | completeF (id : String)
  | pongF
  | connectionTerminate
deriving Repr, DecidableEq

/-- A value delivered into a subscription's sink channel: either a decoded
payload (the `next` case) or the synthetic error value built by
`fmt.Errorf("subscription error: %v", payload)` (the `error` case). -/
inductive SinkValue where
  | dataV (payload : String)
  | errV (payload : String)
deriving Repr, DecidableEq

/-- Observable effects of the engine, in program order. -/
inductive Event where
  | frameSent (f : Frame)
  | sinkDeliver (id : String) (v : SinkValue)
  | sinkClose (id : String)
  | authHandlerCalled
  | reconnectAttempt
  | pumpStarted
  | connClosed
deriving Repr, DecidableEq

/-- Registry lookup, `client.subs[subID]` on the Go map. -/
def lookupSub (subs : List (String × Subscription)) (id : String) : Option Subscription :=
  match subs with
  | [] => none
  | (k, v) :: rest => if k = id then some v else lookupSub rest id

/-- Registry removal, `delete(client.subs, subID)` on the Go map. -/
def removeSub (subs : List (String × Subscription)) (id : String) :
    List (String × Subscription) :=
  subs.filter (fun p => decide (p.1 ≠ id))

/-- Registry insertion, `client.subs[subID] = rec` on the Go map (replaces
any existing entry for the key). -/
def insertSub (subs : List (String × Subscription)) (id : String) (rec : Subscription) :
    List (String × Subscription) :=
  removeSub subs id ++ [(id, rec)]

/-- `closeWebSocket` (part_001 lines 256-273, websocket.go lines 226-247):
if a handle exists, send a best-effort `connection_terminate` frame, close
the socket and clear the handle; otherwise do nothing.  The wait-group join
has no effect in the sequential model. -/
def closeWebSocket (st : ClientState) : ClientState × List Event :=
  if st.wsConn = true then
    ({ st with wsConn := false },
      [Event.frameSent Frame.connectionTerminate, Event.connClosed])
  else (st, [])

/-- `openWebSocket` (part_001 lines 24-51, websocket.go lines 22-77):
no-op success when a handle already exists; otherwise dial (the bounded
retry loop collapses into the oracle `dialOk`: either some attempt
succeeds, or all five fail).  On dial success the handle is recorded, then
the `connection_init` frame is sent; only when that send succeeds is the
pump goroutine (`go client.listen()`) started.  When the init send fails
the function returns an error with the handle still recorded and no pump
started. -/
def openWebSocket (st : ClientState) (dialOk initOk : Bool) :
    ClientState × Except String Unit × List Event :=
  if st.wsConn = true then (st, Except.ok (), [])
  else if dialOk = false then
    (st, Except.error "failed to dial WebSocket after 5 attempts", [])
  else
    let st' : ClientState := { st with wsConn := true }
    if initOk = true then
      (st', Except.ok (),
        [Event.frameSent (Frame.connectionInit st.authHeader), Event.pumpStarted])
    else
      (st', Except.error "failed to send init message",
        [Event.frameSent (Frame.connectionInit st.authHeader)])

/-- `generateUniqueID` (part_001 lines 275-277):
`strconv.FormatInt(atomic.AddInt64(&client.counter, 1), 10)`. -/
def generateUniqueID (st : ClientState) : ClientState × String :=
  ({ st with counter := st.counter + 1 }, Nat.repr (st.counter + 1))

/-- `cleanupSubscription` (part_001 lines 326-335): remove the record; when
the registry is then empty, close the connection. -/
def cleanupSubscription (st : ClientState) (subID : String) : ClientState × List Event :=
  let st' : ClientState := { st with subs := removeSub st.subs subID }
  if st'.subs.isEmpty = true then closeWebSocket st'
  else (st', [])

/-- The body of `subscribe` (part_001 lines 289-307) after the connection
check: generate a fresh id, insert the record, send the `subscribe` frame
(`sendSubscribeMessage`, part_001 lines 310-324); on send failure run
`cleanupSubscription` and return the error, otherwise return the id. -/
def subscribeBody (st : ClientState) (operation : String)
    (vars : List (String × String)) (sendOk : Bool) (evs0 : List Event) :
    ClientState × Except String String × List Event :=
  let g := generateUniqueID st
  let subID := g.2
  let st2 : ClientState :=
    { g.1 with subs := insertSub g.1.subs subID ⟨operation, vars⟩ }
  let evs := evs0 ++ [Event.frameSent (Frame.subscribeF subID operation vars)]
  if sendOk = true then (st2, Except.ok subID, evs)
  else
    let c := cleanupSubscription st2 subID
    (c.1, Except.error "failed to send start message", evs ++ c.2)

/-- `subscribe` (part_001 lines 279-308): open the connection when absent,
propagating its error; then register and send as in `subscribeBody`. -/
def subscribe (st : ClientState) (operation : String)
    (vars : List (String × String)) (dialOk initOk sendOk : Bool) :
    ClientState × Except String String × List Event :=
  if st.wsConn = true then subscribeBody st operation vars sendOk []
  else
    match openWebSocket st dialOk initOk with
    | (st1, Except.ok _, evs) => subscribeBody st1 operation vars sendOk evs
    | (st1, Except.error e, evs) => (st1, Except.error e, evs)

/-- `unsubscribe` (part_001 lines 337-361): error when no connection handle
exists; otherwise send the client `complete` (stop) frame for the id.  When
that send fails the function returns the error immediately, leaving the
registry untouched; only on send success is the record deleted.  The sink
channel is never closed here. -/
def unsubscribe (st : ClientState) (subID : String) (sendOk : Bool) :
    ClientState × Except String Unit × List Event :=
  if st.wsConn = false then
    (st, Except.error "no active WebSocket connection", [])
  else
    let evs := [Event.frameSent (Frame.completeF subID)]
    if sendOk = false then
      (st, Except.error "failed to send stop message", evs)
    else
      ({ st with subs := removeSub st.subs subID }, Except.ok (), evs)

/-- The loop body of `resubscribeAll` (part_001 lines 236-254, websocket.go
lines 206-224): for every record, write a `subscribe` frame from the stored
query/variables; on a per-record send failure close that record's sink and
drop the record, in either case continuing with the remaining records.
Returns the surviving registry and the emitted events. -/
def resubLoop (sendOk : String → Bool) :
    List (String × Subscription) → List (String × Subscription) × List Event
  | [] => ([], [])
  | p :: rest =>
    let frame := Event.frameSent (Frame.subscribeF p.1 p.2.query p.2.vars)
    let r := resubLoop sendOk rest
    if sendOk p.1 = true then (p :: r.1, frame :: r.2)
    else (r.1, frame :: Event.sinkClose p.1 :: r.2)

/-- `resubscribeAll` (part_001 lines 236-254): run the loop over the
registry under the lock. -/
def resubscribeAll (st : ClientState) (sendOk : String → Bool) :
    ClientState × List Event :=
  let r := resubLoop sendOk st.subs
  ({ st with subs := r.1 }, r.2)

/-- One iteration of the unbounded `reconnect` loop (part_001 lines
225-233): print-and-attempt, `openWebSocket`, on success `resubscribeAll`
and return, on failure continue.  `attempts` lists the (dial, init) oracle
outcomes of the successive iterations; the model observes the finitely many
iterations it lists. -/
def reconnectGo (st : ClientState) (attempts : List (Bool × Bool))
    (resubOk : String → Bool) : ClientState × List Event :=
  match attempts with
  | [] => (st, [])
  | (d, i) :: rest =>
    match openWebSocket st d i with
    | (st1, Except.ok _, evs) =>
      let r := resubscribeAll st1 resubOk
      (r.1, Event.reconnectAttempt :: (evs ++ r.2))
    | (st1, Except.error _, evs) =>
      let r := reconnectGo st1 rest resubOk
      (r.1, Event.reconnectAttempt :: (evs ++ r.2))

/-- `reconnect` (part_001 lines 217-234, websocket.go lines 187-204):
idempotent no-op when a handle already exists, otherwise the retry loop. -/
def reconnect (st : ClientState) (attempts : List (Bool × Bool))
    (resubOk : String → Bool) : ClientState × List Event :=
  if st.wsConn = true then (st, []) else reconnectGo st attempts resubOk

/-- A read error surfaced by `conn.ReadJSON`: either a WebSocket close error
carrying a close code, or some other transport error.
`websocket.IsCloseError(err, codes...)` is true exactly for a close error
whose code is listed. -/
inductive ReadErr where
  | closeErr (code : Nat)
  | otherErr
deriving Repr, DecidableEq

/-- `websocket.IsCloseError` specialised to the model. -/
def isCloseCode (e : ReadErr) (codes : List Nat) : Bool :=
  match e with
  | ReadErr.closeErr c => codes.contains c
  | ReadErr.otherErr => false

/-- `handleReadError` (part_001 lines 124-143, websocket.go lines 94-114):
clear the handle first; a normal-closure (1000) or going-away (1001) close
code ends the pump with no further action; an authorization-failure code
(4401 or 4403) invokes the auth-error handler when one is set and then
reconnects; any other error reconnects directly. -/
def handleReadError (st : ClientState) (e : ReadErr) (attempts : List (Bool × Bool))
    (resubOk : String → Bool) : ClientState × List Event :=
  let st1 : ClientState := { st with wsConn := false }
  if isCloseCode e [1000, 1001] = true then (st1, [])
  else
    let evs :=
      if isCloseCode e [4401, 4403] = true then
        if st1.authErrorHandlerSet = true then [Event.authHandlerCalled] else []
      else []
    let r := reconnect st1 attempts resubOk
    (r.1, evs ++ r.2)

/-- An inbound server frame as decoded into `WebSocketMessage`
(websocket.go lines 16-20). -/
inductive ServerFrame where
  | nextF (id : String) (payload : String)
  | errorF (id : String) (payload : String)
  | completeSF (id : String)
  | connectionAck
  | pingF
  | pongSF
  | otherF (type : String)
deriving Repr, DecidableEq

/-- The `next` case of the pump (websocket.go lines 117-141): look the id up
in the registry; when absent, log and ignore.  When present, re-serialize
the payload and deserialize it into a fresh target (both collapse into the
`decodeOk` oracle); on decode failure drop the frame, otherwise deliver the
decoded value into the sink. -/
def handleNext (st : ClientState) (subID payload : String) (decodeOk : Bool) :
    ClientState × List Event :=
  match lookupSub st.subs subID with
  | none => (st, [])
  | some _ =>
    if decodeOk = true then (st, [Event.sinkDeliver subID (SinkValue.dataV payload)])
    else (st, [])

/-- The `error` case of the pump (websocket.go lines 143-150): when the id
is registered, deliver the synthetic `subscription error` value into the
sink; the sink is not closed and the record is not removed. -/
def handleError (st : ClientState) (subID payload : String) : ClientState × List Event :=
  match lookupSub st.subs subID with
  | none => (st, [])
  | some _ => (st, [Event.sinkDeliver subID (SinkValue.errV payload)])

/-- The `complete` case of the pump, `handleCompleteMessage` (part_001 lines
189-202, websocket.go lines 152-165): when the id is registered, close its
sink and delete the record; then, when the registry is empty, close the
connection. -/
def handleComplete (st : ClientState) (subID : String) : ClientState × List Event :=
  let r : ClientState × List Event :=
    match lookupSub st.subs subID with
    | none => (st, [])
    | some _ => ({ st with subs := removeSub st.subs subID }, [Event.sinkClose subID])
  if r.1.subs.isEmpty = true then
    let c := closeWebSocket r.1
    (c.1, r.2 ++ c.2)
  else r

/-- Per-frame dispatch of the pump, the `switch result.Type` of `listen`
(websocket.go lines 116-183): `connection_ack` and `pong` are no-ops,
`ping` answers with a `pong` frame, unknown types are logged and
ignored. -/
def handleMessage (st : ClientState) (f : ServerFrame) (decodeOk : Bool) :
    ClientState × List Event :=
  match f with
  | ServerFrame.nextF id p => handleNext st id p decodeOk
  | ServerFrame.errorF id p => handleError st id p
  | ServerFrame.completeSF id => handleComplete st id
  | ServerFrame.connectionAck => (st, [])
  | ServerFrame.pingF => (st, [Event.frameSent Frame.pongF])
  | ServerFrame.pongSF => (st, [])
  | ServerFrame.otherF _ => (st, [])

/-- One inbound item seen by the pump: a decoded frame (with the decode
oracle for its payload), or a read error (with the oracles of the recovery
it triggers). -/
inductive PumpIn where
  | frame (f : ServerFrame) (decodeOk : Bool)
  | readError (e : ReadErr) (attempts : List (Bool × Bool)) (resubOk : String → Bool)

/-- The pump loop `listen` (part_001 lines 100-122, websocket.go lines
79-185): each iteration stops when the handle is gone; a read error is
handled by `handleReadError` and ends the pump; otherwise the frame is
dispatched and the loop continues with the remaining input. -/
def listen (st : ClientState) : List PumpIn → ClientState × List Event
  | [] => (st, [])
  | PumpIn.frame f d :: rest =>
    if st.wsConn = false then (st, [])
    else
      let r := handleMessage st f d
      let r2 := listen r.1 rest
      (r2.1, r.2 ++ r2.2)
  | PumpIn.readError e att res :: _ =>
    if st.wsConn = false then (st, [])
    else handleReadError st e att res

/-- One entry of the `errors` list of a response envelope
(`[]map[string]interface{}` in Go); `message` is the entry's `message` key,
absent when the map has none. -/
structure GraphQLErrorEntry where
  message : Option String
deriving Repr, DecidableEq

/-- A decoded `{data, errors}` response envelope (`GraphQLResponse`,
part_004 lines 191-194).  `data` is the envelope's `data` field, abstracted
to an opaque decoded value; `none` when the body has no `data` key. -/
structure GraphQLEnvelope where
  data : Option String
  errors : List GraphQLErrorEntry
deriving Repr, DecidableEq

/-- `fmt.Sprintf("%v", m)` for the optional message value: Go prints a
missing map entry (a nil interface) as `<nil>`. -/
def renderMessageValue : Option String → String
  | some s => s
  | none => "<nil>"

/-- `Execute` (part_004 lines 64-105, part_005 lines 21-60) from the point
where the response body has been read, on a body that decodes into an
envelope.  The Go code sets `result.Data = target` and then calls
`json.Unmarshal(body, &result)`, so the envelope's `data` field, when
present, is decoded into the caller's target BEFORE the error list is
inspected; only then, when the error list is non-empty, the structured
`GraphQL error` naming the first entry's message is returned.  The first
component of the result is the content of the caller's target afterwards,
the second the returned error. -/
def ExecuteEnvelope (env : GraphQLEnvelope) (target : Option String) :
    Option String × Except String Unit :=
  let target1 : Option String :=
    match env.data with
    | some d => some d
    | none => target
  match env.errors with
  | [] => (target1, Except.ok ())
  | e :: _ => (target1, Except.error ("GraphQL error: " ++ renderMessageValue e.message))

/-- A caller-side operation on the engine, with the oracle outcomes of the
network sends it performs: a `subscribe` call, an `unsubscribe` call, or a
server-sent `complete` frame processed by the pump. -/
inductive Op where
  | subscribeOp (operation : String) (vars : List (String × String))
      (dialOk initOk sendOk : Bool)
  | unsubscribeOp (id : String) (sendOk : Bool)
  | serverCompleteOp (id : String)
deriving Repr, DecidableEq

/-- The caller-observable outcome of one operation: whether the call
returned successfully and, for a server complete, whether it removed a
registered subscription. -/
inductive OpResult where
  | subOk (id : String)
  | subErr
  | unsubOk (id : String)
  | unsubErr (id : String)
  | compRemoved (id : String)
  | compIgnored (id : String)
deriving Repr, DecidableEq

/-- Run one operation against the client state: `subscribe` and
`unsubscribe` as defined above; a server `complete` frame is dispatched by
the pump, hence only when a connection (and so a pump) exists. -/
def step (st : ClientState) : Op → ClientState × OpResult
  | Op.subscribeOp q v d i s =>
    let r := subscribe st q v d i s
    match r.2.1 with
    | Except.ok id => (r.1, OpResult.subOk id)
    | Except.error _ => (r.1, OpResult.subErr)
  | Op.unsubscribeOp id s =>
    let r := unsubscribe st id s
    match r.2.1 with
    | Except.ok _ => (r.1, OpResult.unsubOk id)
    | Except.error _ => (r.1, OpResult.unsubErr id)
  | Op.serverCompleteOp id =>
    if st.wsConn = false then (st, OpResult.compIgnored id)
    else
      match lookupSub st.subs id with
      | some _ => ((handleComplete st id).1, OpResult.compRemoved id)
      | none => ((handleComplete st id).1, OpResult.compIgnored id)

/-- Run a sequence of operations, collecting the outcomes. -/
def runOps (st : ClientState) : List Op → ClientState × List OpResult
  | [] => (st, [])
  | op :: rest =>
    let r := step st op
    let r2 := runOps r.1 rest
    (r2.1, r.2 :: r2.2)

/-- The claim-side bookkeeping of open subscriptions: a successful
subscribe call opens its id; a successful unsubscribe or a server complete
that removed the record closes it; failed calls and ignored completes
change nothing. -/
def openStep (acc : List String) : OpResult → List String
  | OpResult.subOk id => acc ++ [id]
  | OpResult.unsubOk id => acc.filter (fun x => decide (x ≠ id))
  | OpResult.compRemoved id => acc.filter (fun x => decide (x ≠ id))
  | _ => acc

/-- The ids of the subscribe calls that succeeded and have not yet been
matched by a successful unsubscribe or a server-sent complete. -/
def openIds (rs : List OpResult) : List String :=
  rs.foldl openStep []

/-- Little-endian base-10 digits of a natural number (empty for zero); the
specification-side counterpart of the rendering done by `Nat.repr`, used to
show generated subscription ids are pairwise distinct. -/
def digitsLE : Nat → List Nat
  | 0 => []
  | n + 1 => ((n + 1) % 10) :: digitsLE ((n + 1) / 10)
decreasing_by exact Nat.div_lt_self (Nat.succ_pos n) (by decide)

/-- Reassemble a natural number from its little-endian base-10 digits. -/
def unDigitsLE : List Nat → Nat
  | [] => 0
  | d :: rest => d + 10 * unDigitsLE rest

/-- The id-generator invariant: every key in the registry is the decimal
rendering of a positive counter value no greater than the current one. -/
def KeysBounded (subs : List (String × Subscription)) (c : Nat) : Prop :=
  ∀ id ∈ subs.map Prod.fst, ∃ k, 0 < k ∧ k ≤ c ∧ id = Nat.repr k

/-- A sample registry record. -/
def recA : Subscription := { query := "subscription eventsA", vars := [("x", "1")] }

/-- A second sample registry record. -/
def recB : Subscription := { query := "subscription eventsB", vars := [] }

/-- A client with one live connection and one registered subscription. -/
def oneSubState : ClientState :=
  { wsConn := true, authHeader := "", authErrorHandlerSet := false
    counter := 1, subs := [("1", recA)] }

/-- A client with one live connection and two registered subscriptions. -/
def twoSubState : ClientState :=
  { wsConn := true, authHeader := "", authErrorHandlerSet := false
    counter := 2, subs := [("1", recA), ("2", recB)] }

/-- `oneSubState` with an auth-error handler registered. -/
def authState : ClientState := { oneSubState with authErrorHandlerSet := true }

/-- A send oracle under which every write succeeds. -/
def allSendOk : String → Bool := fun _ => true

/-- A send oracle under which only the write for id 1 fails. -/
def failFirstSend : String → Bool := fun id => decide (id ≠ "1")

/-- A subscribe call whose sends all succeed, followed by an unsubscribe
call for the issued id whose stop-frame send fails. -/
def c1ops : List Op :=
  [Op.subscribeOp "subscription eventsA" [("x", "1")] true true true,
   Op.unsubscribeOp "1" false]

/-- A response envelope carrying both a data field and a non-empty error
list, as a server returns for a partially failed operation. -/
def mixedEnv : GraphQLEnvelope :=
  { data := some "partialData", errors := [{ message := some "bad" }] }

/-- The envelope of the specification scenario: errors only, no data
field. -/
def errOnlyEnv : GraphQLEnvelope :=
  { data := none, errors := [{ message := some "bad" }] }

/-! ## Injectivity of the decimal id rendering

`generateUniqueID` renders the incremented counter with `Nat.repr`; the
registry invariant needs distinct counters to yield distinct id strings. -/

theorem unDigitsLE_digitsLE (n : Nat) : unDigitsLE (digitsLE n) = n := by
  induction n using Nat.strong_induction_on with
  | _ n ih =>
    match n with
    | 0 => simp [digitsLE, unDigitsLE]
    | m + 1 =>
      rw [digitsLE, unDigitsLE]
      rw [ih ((m + 1) / 10) (Nat.div_lt_self (Nat.succ_pos m) (by decide))]
      exact Nat.mod_add_div (m + 1) 10

theorem digitsLE_injective (m n : Nat) (h : digitsLE m = digitsLE n) : m = n := by
  have h1 := unDigitsLE_digitsLE m
  have h2 := unDigitsLE_digitsLE n
  rw [h] at h1
  omega

theorem digitsLE_lt_ten (n : Nat) : ∀ x ∈ digitsLE n, x < 10 := by
  induction n using Nat.strong_induction_on with
  | _ n ih =>
    match n with
    | 0 => simp [digitsLE]
    | m + 1 =>
      rw [digitsLE]
      intro x hx
      rcases List.mem_cons.1 hx with h | h
      · subst h
        exact Nat.mod_lt _ (by decide)
      · exact ih ((m + 1) / 10) (Nat.div_lt_self (Nat.succ_pos m) (by decide)) x h

theorem digitChar_inj_fin :
    ∀ a b : Fin 10, Nat.digitChar a.val = Nat.digitChar b.val → a = b := by decide

theorem digitChar_inj_lt (a b : Nat) (ha : a < 10) (hb : b < 10)
    (h : Nat.digitChar a = Nat.digitChar b) : a = b := by
  have := digitChar_inj_fin ⟨a, ha⟩ ⟨b, hb⟩ h
  exact congrArg Fin.val this

theorem map_digitChar_inj :
    ∀ l₁ l₂ : List Nat, (∀ x ∈ l₁, x < 10) → (∀ x ∈ l₂, x < 10) →
      l₁.map Nat.digitChar = l₂.map Nat.digitChar → l₁ = l₂ := by
  intro l₁
  induction l₁ with
  | nil =>
    intro l₂ _ _ h
    cases l₂ with
    | nil => rfl
    | cons b t => simp at h
  | cons a t ih =>
    intro l₂ h1 h2 h
    cases l₂ with
    | nil => simp at h
    | cons b t' =>
      simp only [List.map_cons, List.cons.injEq] at h
      have hab : a = b :=
        digitChar_inj_lt a b (h1 a (List.mem_cons_self a t)) (h2 b (List.mem_cons_self b t')) h.1
      have ht : t = t' :=
        ih t' (fun x hx => h1 x (List.mem_cons_of_mem a hx))
          (fun x hx => h2 x (List.mem_cons_of_mem b hx)) h.2
      rw [hab, ht]

theorem toDigitsCore_spec :
    ∀ n : Nat, ∀ fuel : Nat, ∀ ds : List Char, 0 < n → n < fuel →
      Nat.toDigitsCore 10 fuel n ds = ((digitsLE n).map Nat.digitChar).reverse ++ ds := by
  intro n
  induction n using Nat.strong_induction_on with
  | _ n ih =>
    intro fuel ds hpos hfuel
    match fuel, hfuel with
    | f + 1, hfuel =>
      have hstep : Nat.toDigitsCore 10 (f + 1) n ds =
          if n / 10 = 0 then Nat.digitChar (n % 10) :: ds
          else Nat.toDigitsCore 10 f (n / 10) (Nat.digitChar (n % 10) :: ds) := rfl
      rw [hstep]
      by_cases hq : n / 10 = 0
      · rw [if_pos hq]
        match n, hpos with
        | m + 1, _ =>
          rw [digitsLE]
          rw [show (m + 1) / 10 = 0 from hq, digitsLE]
          simp
      · rw [if_neg hq]
        have hlt : n / 10 < n := Nat.div_lt_self hpos (by decide)
        have hfl : n / 10 < f := by omega
        rw [ih (n / 10) hlt f (Nat.digitChar (n % 10) :: ds) (Nat.pos_of_ne_zero hq) hfl]
        match n, hpos with
        | m + 1, _ =>
          rw [digitsLE]
          simp

theorem toDigits_spec (n : Nat) (hpos : 0 < n) :
    Nat.toDigits 10 n = ((digitsLE n).map Nat.digitChar).reverse := by
  rw [Nat.toDigits, toDigitsCore_spec n (n + 1) [] hpos (Nat.lt_succ_self n)]
  simp

theorem repr_injective (m n : Nat) (h : Nat.repr m = Nat.repr n) : m = n := by
  have hd : Nat.toDigits 10 m = Nat.toDigits 10 n := by
    have h2 := congrArg String.data h
    simpa [Nat.repr, List.asString] using h2
  match m, n with
  | 0, 0 => rfl
  | 0, k + 1 =>
    rw [toDigits_spec (k + 1) (Nat.succ_pos k)] at hd
    have hz : Nat.toDigits 10 0 = ['0'] := rfl
    rw [hz] at hd
    have hmap : (digitsLE (k + 1)).map Nat.digitChar = ['0'] := by
      have h3 := congrArg List.reverse hd
      simp at h3
      exact h3.symm
    have h0 : ('0' : Char) = Nat.digitChar 0 := rfl
    have hdig : digitsLE (k + 1) = [0] := by
      apply map_digitChar_inj _ _ (digitsLE_lt_ten (k + 1)) (by simp)
      rw [hmap, List.map_cons, List.map_nil, ← h0]
    have := unDigitsLE_digitsLE (k + 1)
    rw [hdig] at this
    simp [unDigitsLE] at this
  | k + 1, 0 =>
    rw [toDigits_spec (k + 1) (Nat.succ_pos k)] at hd
    have hz : Nat.toDigits 10 0 = ['0'] := rfl
    rw [hz] at hd
    have hmap : (digitsLE (k + 1)).map Nat.digitChar = ['0'] := by
      have := congrArg List.reverse hd
      simpa using this
    have h0 : ('0' : Char) = Nat.digitChar 0 := rfl
    have hdig : digitsLE (k + 1) = [0] := by
      apply map_digitChar_inj _ _ (digitsLE_lt_ten (k + 1)) (by simp)
      rw [hmap, List.map_cons, List.map_nil, ← h0]
    have := unDigitsLE_digitsLE (k + 1)
    rw [hdig] at this
    simp [unDigitsLE] at this
  | a + 1, b + 1 =>
    rw [toDigits_spec (a + 1) (Nat.succ_pos a), toDigits_spec (b + 1) (Nat.succ_pos b)] at hd
    have hmap : (digitsLE (a + 1)).map Nat.digitChar = (digitsLE (b + 1)).map Nat.digitChar := by
      have := congrArg List.reverse hd
      simpa using this
    have hdig := map_digitChar_inj _ _ (digitsLE_lt_ten (a + 1)) (digitsLE_lt_ten (b + 1)) hmap
    exact digitsLE_injective _ _ hdig

/-! ## Registry helper lemmas -/

theorem removeSub_map_fst (subs : List (String × Subscription)) (id : String) :
    (removeSub subs id).map Prod.fst =
      (subs.map Prod.fst).filter (fun x => decide (x ≠ id)) := by
  induction subs with
  | nil => rfl
  | cons p rest ih =>
    simp only [removeSub, List.map_cons, List.filter_cons] at *
    by_cases h : p.1 = id
    · simpa [h, decide_not] using ih
    · simpa [h, decide_not] using ih

theorem removeSub_eq_self (subs : List (String × Subscription)) (id : String)
    (h : id ∉ subs.map Prod.fst) : removeSub subs id = subs := by
  induction subs with
  | nil => rfl
  | cons p rest ih =>
    simp only [List.map_cons, List.mem_cons] at h
    push_neg at h
    have hp : p.1 ≠ id := fun hh => h.1 hh.symm
    simp only [removeSub, List.filter_cons] at *
    simpa [hp, decide_not] using ih h.2

theorem removeSub_append (l₁ l₂ : List (String × Subscription)) (id : String) :
    removeSub (l₁ ++ l₂) id = removeSub l₁ id ++ removeSub l₂ id := by
  simp [removeSub, List.filter_append]

theorem insertSub_map_fst_fresh (subs : List (String × Subscription)) (id : String)
    (rec : Subscription) (h : id ∉ subs.map Prod.fst) :
    (insertSub subs id rec).map Prod.fst = subs.map Prod.fst ++ [id] := by
  simp [insertSub, removeSub_eq_self subs id h]

theorem removeSub_insertSub (subs : List (String × Subscription)) (id : String)
    (rec : Subscription) (h : id ∉ subs.map Prod.fst) :
    removeSub (insertSub subs id rec) id = subs := by
  rw [insertSub, removeSub_eq_self subs id h, removeSub_append,
    removeSub_eq_self subs id h]
  simp [removeSub]

theorem lookupSub_none_iff (subs : List (String × Subscription)) (id : String) :
    lookupSub subs id = none ↔ id ∉ subs.map Prod.fst := by
  induction subs with
  | nil => simp [lookupSub]
  | cons p rest ih =>
    by_cases h : p.1 = id
    · simp [lookupSub, h]
    · simp only [lookupSub, if_neg h, List.map_cons, List.mem_cons]
      rw [ih]
      constructor
      · intro hn
        push_neg
        exact ⟨fun hh => h hh.symm, hn⟩
      · intro hn
        push_neg at hn
        exact hn.2

/-! ## The id-generator invariant -/

theorem kb_mono (subs : List (String × Subscription)) (c c' : Nat)
    (h : KeysBounded subs c) (hc : c ≤ c') : KeysBounded subs c' := by
  intro id hm
  obtain ⟨k, h1, h2, h3⟩ := h id hm
  exact ⟨k, h1, le_trans h2 hc, h3⟩

theorem kb_fresh (subs : List (String × Subscription)) (c : Nat)
    (h : KeysBounded subs c) : Nat.repr (c + 1) ∉ subs.map Prod.fst := by
  intro hmem
  obtain ⟨k, hk0, hkc, hkeq⟩ := h _ hmem
  have := repr_injective _ _ hkeq
  omega

theorem kb_insert (subs : List (String × Subscription)) (c : Nat) (rec : Subscription)
    (h : KeysBounded subs c) :
    KeysBounded (insertSub subs (Nat.repr (c + 1)) rec) (c + 1) := by
  intro id hm
  rw [insertSub_map_fst_fresh subs _ rec (kb_fresh subs c h)] at hm
  rcases List.mem_append.1 hm with hm | hm
  · obtain ⟨k, h1, h2, h3⟩ := h id hm
    exact ⟨k, h1, by omega, h3⟩
  · simp only [List.mem_singleton] at hm
    exact ⟨c + 1, by omega, le_refl _, hm⟩

theorem kb_remove (subs : List (String × Subscription)) (c : Nat) (id : String)
    (h : KeysBounded subs c) : KeysBounded (removeSub subs id) c := by
  intro x hm
  rw [removeSub_map_fst] at hm
  exact h x (List.mem_of_mem_filter hm)

/-! ## Characterizations of subscribe, unsubscribe and step -/

theorem subscribeBody_true_eq (st : ClientState) (q : String)
    (v : List (String × String)) (evs0 : List Event) :
    subscribeBody st q v true evs0 =
      ({ st with
          counter := st.counter + 1
          subs := insertSub st.subs (Nat.repr (st.counter + 1)) ⟨q, v⟩ },
        Except.ok (Nat.repr (st.counter + 1)),
        evs0 ++ [Event.frameSent (Frame.subscribeF (Nat.repr (st.counter + 1)) q v)]) := rfl

theorem subscribeBody_false_spec (st : ClientState) (q : String)
    (v : List (String × String)) (evs0 : List Event)
    (hfresh : Nat.repr (st.counter + 1) ∉ st.subs.map Prod.fst) :
    (subscribeBody st q v false evs0).1.subs = st.subs ∧
    (subscribeBody st q v false evs0).1.counter = st.counter + 1 ∧
    (subscribeBody st q v false evs0).2.1 = Except.error "failed to send start message" := by
  have hrm := removeSub_insertSub st.subs (Nat.repr (st.counter + 1)) ⟨q, v⟩ hfresh
  simp only [subscribeBody, generateUniqueID, cleanupSubscription, closeWebSocket]
  simp only [hrm]
  by_cases he : st.subs.isEmpty = true <;> by_cases hw : st.wsConn = true <;>
    simp [he, hw]

theorem step_subscribe_keys (st : ClientState) (q : String) (v : List (String × String))
    (d i s : Bool) (hb : KeysBounded st.subs st.counter) :
    KeysBounded (step st (Op.subscribeOp q v d i s)).1.subs
        (step st (Op.subscribeOp q v d i s)).1.counter ∧
    (step st (Op.subscribeOp q v d i s)).1.subs.map Prod.fst
      = openStep (st.subs.map Prod.fst) (step st (Op.subscribeOp q v d i s)).2 := by
  have hbody : ∀ st1 : ClientState, st1.subs = st.subs → st1.counter = st.counter →
      ∀ evs0,
      KeysBounded (subscribeBody st1 q v s evs0).1.subs
          (subscribeBody st1 q v s evs0).1.counter ∧
      ((subscribeBody st1 q v s evs0).1.subs.map Prod.fst
          = match (subscribeBody st1 q v s evs0).2.1 with
            | Except.ok id => st.subs.map Prod.fst ++ [id]
            | Except.error _ => st.subs.map Prod.fst) := by
    intro st1 hsubs hcnt evs0
    have hb1 : KeysBounded st1.subs st1.counter := by rw [hsubs, hcnt]; exact hb
    have hfresh1 : Nat.repr (st1.counter + 1) ∉ st1.subs.map Prod.fst :=
      kb_fresh st1.subs st1.counter hb1
    cases s with
    | true =>
      simp only [subscribeBody_true_eq]
      refine ⟨kb_insert st1.subs st1.counter ⟨q, v⟩ hb1, ?_⟩
      rw [insertSub_map_fst_fresh st1.subs _ ⟨q, v⟩ hfresh1, hsubs]
    | false =>
      obtain ⟨h1, h2, h3⟩ := subscribeBody_false_spec st1 q v evs0 hfresh1
      rw [h3]
      constructor
      · rw [h1, h2, hsubs, hcnt]
        exact kb_mono st.subs st.counter (st.counter + 1) hb (by omega)
      · rw [h1, hsubs]
  by_cases hconn : st.wsConn = true
  · have he : subscribe st q v d i s = subscribeBody st q v s [] := by
      simp [subscribe, hconn]
    obtain ⟨hk, hm⟩ := hbody st rfl rfl []
    simp only [step, he]
    rcases hr : (subscribeBody st q v s []).2.1 with e | id
    · rw [hr] at hm
      exact ⟨hk, hm⟩
    · rw [hr] at hm
      exact ⟨hk, hm⟩
  · have hconn' : st.wsConn = false := by
      cases hw : st.wsConn
      · rfl
      · exact absurd hw hconn
    cases d with
    | false =>
      have he : subscribe st q v false i s =
          (st, Except.error "failed to dial WebSocket after 5 attempts", []) := by
        simp [subscribe, openWebSocket, hconn']
      simp only [step, he, openStep]
      exact ⟨hb, trivial⟩
    | true =>
      cases i with
      | false =>
        have he : subscribe st q v true false s =
            ({ st with wsConn := true }, Except.error "failed to send init message",
              [Event.frameSent (Frame.connectionInit st.authHeader)]) := by
          simp [subscribe, openWebSocket, hconn']
        simp only [step, he, openStep]
        exact ⟨hb, trivial⟩
      | true =>
        have he : subscribe st q v true true s =
            subscribeBody { st with wsConn := true } q v s
              [Event.frameSent (Frame.connectionInit st.authHeader), Event.pumpStarted] := by
          simp [subscribe, openWebSocket, hconn']
        obtain ⟨hk, hm⟩ := hbody { st with wsConn := true } rfl rfl
          [Event.frameSent (Frame.connectionInit st.authHeader), Event.pumpStarted]
        simp only [step, he]
        rcases hr : (subscribeBody { st with wsConn := true } q v s
            [Event.frameSent (Frame.connectionInit st.authHeader), Event.pumpStarted]).2.1
          with e | id
        · rw [hr] at hm
          exact ⟨hk, hm⟩
        · rw [hr] at hm
          exact ⟨hk, hm⟩

theorem step_unsubscribe_keys (st : ClientState) (id : String) (s : Bool)
    (hb : KeysBounded st.subs st.counter) :
    KeysBounded (step st (Op.unsubscribeOp id s)).1.subs
        (step st (Op.unsubscribeOp id s)).1.counter ∧
    (step st (Op.unsubscribeOp id s)).1.subs.map Prod.fst
      = openStep (st.subs.map Prod.fst) (step st (Op.unsubscribeOp id s)).2 := by
  by_cases hconn : st.wsConn = true
  · cases s with
    | false =>
      have he : unsubscribe st id false =
          (st, Except.error "failed to send stop message",
            [Event.frameSent (Frame.completeF id)]) := by
        simp [unsubscribe, hconn]
      simp only [step, he, openStep]
      exact ⟨hb, trivial⟩
    | true =>
      have he : unsubscribe st id true =
          ({ st with subs := removeSub st.subs id }, Except.ok (),
            [Event.frameSent (Frame.completeF id)]) := by
        simp [unsubscribe, hconn]
      simp only [step, he, openStep]
      exact ⟨kb_remove st.subs st.counter id hb, removeSub_map_fst st.subs id⟩
  · have hconn' : st.wsConn = false := by
      cases hw : st.wsConn
      · rfl
      · exact absurd hw hconn
    have he : unsubscribe st id s =
        (st, Except.error "no active WebSocket connection", []) := by
      simp [unsubscribe, hconn']
    simp only [step, he, openStep]
    exact ⟨hb, trivial⟩

theorem handleComplete_subs (st : ClientState) (id : String) :
    ((handleComplete st id).1.subs = st.subs ∧ lookupSub st.subs id = none) ∨
    ((handleComplete st id).1.subs = removeSub st.subs id ∧
      (lookupSub st.subs id).isSome = true) := by
  rcases hl : lookupSub st.subs id with _ | sub
  · left
    refine ⟨?_, rfl⟩
    simp only [handleComplete, hl]
    by_cases he : st.subs.isEmpty = true <;> by_cases hw : st.wsConn = true <;>
      simp [he, hw, closeWebSocket]
  · right
    refine ⟨?_, by simp [hl]⟩
    simp only [handleComplete, hl]
    by_cases he : (removeSub st.subs id).isEmpty = true <;>
      by_cases hw : st.wsConn = true <;> simp [he, hw, closeWebSocket]

theorem handleComplete_counter (st : ClientState) (id : String) :
    (handleComplete st id).1.counter = st.counter := by
  rcases hl : lookupSub st.subs id with _ | sub <;>
    simp only [handleComplete, hl] <;>
    by_cases he : (removeSub st.subs id).isEmpty = true <;>
    by_cases hw : st.wsConn = true <;>
    by_cases he2 : st.subs.isEmpty = true <;>
    simp [he, hw, he2, closeWebSocket]

theorem step_complete_keys (st : ClientState) (id : String)
    (hb : KeysBounded st.subs st.counter) :
    KeysBounded (step st (Op.serverCompleteOp id)).1.subs
        (step st (Op.serverCompleteOp id)).1.counter ∧
    (step st (Op.serverCompleteOp id)).1.subs.map Prod.fst
      = openStep (st.subs.map Prod.fst) (step st (Op.serverCompleteOp id)).2 := by
  by_cases hconn : st.wsConn = false
  · have he : step st (Op.serverCompleteOp id) = (st, OpResult.compIgnored id) := by
      simp [step, hconn]
    rw [he]
    exact ⟨hb, rfl⟩
  · rcases hl : lookupSub st.subs id with _ | sub
    · have he : step st (Op.serverCompleteOp id)
          = ((handleComplete st id).1, OpResult.compIgnored id) := by
        simp [step, hconn, hl]
      have hsubs : (handleComplete st id).1.subs = st.subs := by
        rcases handleComplete_subs st id with ⟨h1, _⟩ | ⟨_, h2⟩
        · exact h1
        · rw [hl] at h2
          simp at h2
      have hcnt := handleComplete_counter st id
      rw [he]
      show KeysBounded (handleComplete st id).1.subs (handleComplete st id).1.counter ∧
        (handleComplete st id).1.subs.map Prod.fst = st.subs.map Prod.fst
      rw [hsubs, hcnt]
      exact ⟨hb, rfl⟩
    · have he : step st (Op.serverCompleteOp id)
          = ((handleComplete st id).1, OpResult.compRemoved id) := by
        simp [step, hconn, hl]
      have hsubs : (handleComplete st id).1.subs = removeSub st.subs id := by
        rcases handleComplete_subs st id with ⟨_, h2⟩ | ⟨h1, _⟩
        · rw [hl] at h2
          simp at h2
        · exact h1
      have hcnt := handleComplete_counter st id
      rw [he]
      show KeysBounded (handleComplete st id).1.subs (handleComplete st id).1.counter ∧
        (handleComplete st id).1.subs.map Prod.fst
          = (st.subs.map Prod.fst).filter (fun x => decide (x ≠ id))
      rw [hsubs, hcnt]
      exact ⟨kb_remove st.subs st.counter id hb, removeSub_map_fst st.subs id⟩

theorem step_keys (st : ClientState) (op : Op) (hb : KeysBounded st.subs st.counter) :
    KeysBounded (step st op).1.subs (step st op).1.counter ∧
    (step st op).1.subs.map Prod.fst
      = openStep (st.subs.map Prod.fst) (step st op).2 := by
  match op with
  | Op.subscribeOp q v d i s => exact step_subscribe_keys st q v d i s hb
  | Op.unsubscribeOp id s => exact step_unsubscribe_keys st id s hb
  | Op.serverCompleteOp id => exact step_complete_keys st id hb

theorem runOps_keys (ops : List Op) : ∀ st : ClientState,
    KeysBounded st.subs st.counter →
    KeysBounded (runOps st ops).1.subs (runOps st ops).1.counter ∧
    (runOps st ops).1.subs.map Prod.fst
      = (runOps st ops).2.foldl openStep (st.subs.map Prod.fst) := by
  induction ops with
  | nil =>
    intro st hb
    exact ⟨hb, rfl⟩
  | cons op rest ih =>
    intro st hb
    obtain ⟨hb1, hk1⟩ := step_keys st op hb
    obtain ⟨hb2, hk2⟩ := ih (step st op).1 hb1
    refine ⟨hb2, ?_⟩
    show (runOps (step st op).1 rest).1.subs.map Prod.fst
      = ((step st op).2 :: (runOps (step st op).1 rest).2).foldl openStep
          (st.subs.map Prod.fst)
    rw [List.foldl_cons, ← hk1]
    exact hk2

/-! ## Claim C2 -/

/-- Claim C2 counterexample: with a live connection and the record for id 1
registered, an `unsubscribe` whose stop-frame send fails returns the send
error and leaves the record in the registry — the claim asserts the record
is removed regardless of the send outcome. -/
theorem c2_counterexample :
    (unsubscribe oneSubState "1" false).2.1 = Except.error "failed to send stop message" ∧
    lookupSub (unsubscribe oneSubState "1" false).1.subs "1" = some recA := ⟨rfl, by decide⟩

/-- Claim C2 (amended): `unsubscribe(id)` returns an error when no
connection handle exists; when the complete/stop frame send succeeds it
removes the record from the registry; when the send fails it returns the
send error and the record stays registered. -/
theorem c2_unsubscribe_behavior (st : ClientState) (id : String) (sendOk : Bool) :
    (st.wsConn = false →
      unsubscribe st id sendOk = (st, Except.error "no active WebSocket connection", [])) ∧
    (st.wsConn = true → sendOk = true →
      unsubscribe st id sendOk =
        ({ st with subs := removeSub st.subs id }, Except.ok (),
          [Event.frameSent (Frame.completeF id)])) ∧
    (st.wsConn = true → sendOk = false →
      unsubscribe st id sendOk =
        (st, Except.error "failed to send stop message",
          [Event.frameSent (Frame.completeF id)])) := by
  refine ⟨?_, ?_, ?_⟩
  · intro h1
    simp [unsubscribe, h1]
  · intro h1 h2
    simp [unsubscribe, h1, h2]
  · intro h1 h2
    simp [unsubscribe, h1, h2]

/-- Concrete instance of the amended C2 theorem: a successful unsubscribe
for id 1 removes its record and returns ok. -/
theorem c2_witness :
    unsubscribe oneSubState "1" true =
      ({ oneSubState with subs := removeSub oneSubState.subs "1" }, Except.ok (),
        [Event.frameSent (Frame.completeF "1")]) :=
  (c2_unsubscribe_behavior oneSubState "1" true).2.1 rfl rfl

/-! ## Claim C5 -/

/-- Claim C5: an inbound error frame whose id matches a registered
subscription makes the pump deliver the synthetic subscription-error value
into that subscription's sink; the state (hence the registry) is unchanged
and no sink is closed. -/
theorem c5_error_frame (st : ClientState) (id payload : String) (d : Bool)
    (sub : Subscription) (hlook : lookupSub st.subs id = some sub) :
    handleMessage st (ServerFrame.errorF id payload) d
      = (st, [Event.sinkDeliver id (SinkValue.errV payload)]) ∧
    Event.sinkClose id ∉ (handleMessage st (ServerFrame.errorF id payload) d).2 := by
  have h : handleError st id payload = (st, [Event.sinkDeliver id (SinkValue.errV payload)]) := by
    simp [handleError, hlook]
  refine ⟨h, ?_⟩
  simp [handleMessage, h]

/-- Concrete instance of C5: an error frame for the registered id 1
delivers its synthetic error value and closes nothing. -/
theorem c5_witness :
    handleMessage oneSubState (ServerFrame.errorF "1" "boom") true
      = (oneSubState, [Event.sinkDeliver "1" (SinkValue.errV "boom")]) ∧
    Event.sinkClose "1" ∉ (handleMessage oneSubState (ServerFrame.errorF "1" "boom") true).2 :=
  c5_error_frame oneSubState "1" "boom" true recA (by decide)

/-! ## Claim C6 -/

/-- Claim C6: an inbound complete frame whose id matches a registered
subscription closes that subscription's sink and removes its record, and
the connection is closed if and only if the registry is then empty. -/
theorem c6_complete_frame (st : ClientState) (id : String) (d : Bool)
    (sub : Subscription) (hconn : st.wsConn = true)
    (hlook : lookupSub st.subs id = some sub) :
    (handleMessage st (ServerFrame.completeSF id) d).1.subs = removeSub st.subs id ∧
    Event.sinkClose id ∈ (handleMessage st (ServerFrame.completeSF id) d).2 ∧
    ((handleMessage st (ServerFrame.completeSF id) d).1.wsConn = false
      ↔ (removeSub st.subs id).isEmpty = true) ∧
    (Event.connClosed ∈ (handleMessage st (ServerFrame.completeSF id) d).2
      ↔ (removeSub st.subs id).isEmpty = true) := by
  by_cases he : (removeSub st.subs id).isEmpty = true
  · simp [handleMessage, handleComplete, hlook, he, closeWebSocket, hconn]
  · simp [handleMessage, handleComplete, hlook, he, hconn]

/-- Concrete instance of C6, the two-subscription scenario: completing
subscription 1 closes its sink and removes its record while subscription 2
and the connection stay; the registry is not empty so the connection is not
closed. -/
theorem c6_witness :
    (handleMessage twoSubState (ServerFrame.completeSF "1") true).1.subs
        = removeSub twoSubState.subs "1" ∧
    Event.sinkClose "1" ∈ (handleMessage twoSubState (ServerFrame.completeSF "1") true).2 ∧
    ((handleMessage twoSubState (ServerFrame.completeSF "1") true).1.wsConn = false
      ↔ (removeSub twoSubState.subs "1").isEmpty = true) ∧
    (Event.connClosed ∈ (handleMessage twoSubState (ServerFrame.completeSF "1") true).2
      ↔ (removeSub twoSubState.subs "1").isEmpty = true) :=
  c6_complete_frame twoSubState "1" true recA rfl (by decide)

/-! ## Claim C7 -/

/-- Claim C7: a next frame for an id that is not in the registry leaves the
state unchanged, delivers nothing into any sink (the dispatch produces no
events at all), and the pump goes on to process the remaining input
unchanged. -/
theorem c7_unknown_next (st : ClientState) (id payload : String) (d : Bool)
    (rest : List PumpIn) (hconn : st.wsConn = true)
    (hlook : lookupSub st.subs id = none) :
    handleMessage st (ServerFrame.nextF id payload) d = (st, []) ∧
    listen st (PumpIn.frame (ServerFrame.nextF id payload) d :: rest) = listen st rest := by
  have h1 : handleMessage st (ServerFrame.nextF id payload) d = (st, []) := by
    simp [handleMessage, handleNext, hlook]
  refine ⟨h1, ?_⟩
  simp only [listen, hconn, h1]
  simp

/-- Concrete instance of C7: a next frame for the unknown id 9 changes
nothing and the pump continues. -/
theorem c7_witness :
    handleMessage oneSubState (ServerFrame.nextF "9" "payload") true = (oneSubState, []) ∧
    listen oneSubState [PumpIn.frame (ServerFrame.nextF "9" "payload") true]
      = listen oneSubState [] :=
  c7_unknown_next oneSubState "9" "payload" true [] rfl (by decide)

/-! ## Claim C8 -/

/-- Claim C8 (code bug): when the dial succeeds but the `connection_init`
send fails, `openWebSocket` returns the init-send error with the connection
handle recorded and NO pump goroutine started, breaking the
handle-implies-pump invariant; on the fully successful path the events are
exactly the init frame followed by one pump start. -/
theorem c8_init_failure_no_pump :
    (openWebSocket initialState true false).1.wsConn = true ∧
    Event.pumpStarted ∉ (openWebSocket initialState true false).2.2 ∧
    (openWebSocket initialState true false).2.1
      = Except.error "failed to send init message" ∧
    (openWebSocket initialState true true).2.2
      = [Event.frameSent (Frame.connectionInit ""), Event.pumpStarted] :=
  ⟨rfl, by decide, rfl, by decide⟩

/-! ## Claim C9 -/

/-- Claim C9 counterexample: for an envelope carrying both a data field and
a non-empty error list, `Execute` decodes the data into the caller's target
(the target changes from empty to the envelope's data) even though it
returns the structured error — the claim asserts no data from the envelope
is written into the target. -/
theorem c9_counterexample :
    (ExecuteEnvelope mixedEnv none).2 = Except.error "GraphQL error: bad" ∧
    (ExecuteEnvelope mixedEnv none).1 = some "partialData" := ⟨rfl, by decide⟩

/-- Claim C9 (amended): when the envelope's error list is non-empty,
`Execute` returns the structured `GraphQL error` carrying the first entry's
message; the caller's target is untouched exactly when the envelope has no
data field, and receives the envelope's data when one is present (the
unmarshal into the target happens before the error check). -/
theorem c9_execute_errors (env : GraphQLEnvelope) (target : Option String)
    (e : GraphQLErrorEntry) (rest : List GraphQLErrorEntry)
    (herr : env.errors = e :: rest) :
    (ExecuteEnvelope env target).2
      = Except.error ("GraphQL error: " ++ renderMessageValue e.message) ∧
    (env.data = none → (ExecuteEnvelope env target).1 = target) ∧
    (∀ d, env.data = some d → (ExecuteEnvelope env target).1 = some d) := by
  refine ⟨?_, ?_, ?_⟩
  · simp [ExecuteEnvelope, herr]
  · intro hd
    simp [ExecuteEnvelope, herr, hd]
  · intro d hd
    simp [ExecuteEnvelope, herr, hd]

/-- Concrete instance of the amended C9 theorem, the specification
scenario: the errors-only envelope yields the structured error containing
bad and the target is unchanged. -/
theorem c9_witness :
    (ExecuteEnvelope errOnlyEnv none).2
      = Except.error ("GraphQL error: " ++ renderMessageValue (some "bad")) ∧
    (ExecuteEnvelope errOnlyEnv none).1 = none :=
  ⟨(c9_execute_errors errOnlyEnv none ⟨some "bad"⟩ [] rfl).1,
   (c9_execute_errors errOnlyEnv none ⟨some "bad"⟩ [] rfl).2.1 rfl⟩

/-! ## Claim C3 -/

theorem resubLoop_fst (sendOk : String → Bool) (l : List (String × Subscription)) :
    (resubLoop sendOk l).1 = l.filter (fun p => sendOk p.1) := by
  induction l with
  | nil => rfl
  | cons p rest ih =>
    by_cases h : sendOk p.1 = true
    · simp [resubLoop, List.filter_cons, h, ih]
    · simp [resubLoop, List.filter_cons, h, ih]

theorem resubLoop_frame (sendOk : String → Bool) (l : List (String × Subscription))
    (p : String × Subscription) (hp : p ∈ l) :
    Event.frameSent (Frame.subscribeF p.1 p.2.query p.2.vars) ∈ (resubLoop sendOk l).2 := by
  induction l with
  | nil => cases hp
  | cons q rest ih =>
    rcases List.mem_cons.1 hp with h | h
    · subst h
      by_cases hs : sendOk p.1 = true <;> simp [resubLoop, hs]
    · by_cases hs : sendOk q.1 = true <;> simp [resubLoop, hs, ih h]

theorem resubLoop_close (sendOk : String → Bool) (l : List (String × Subscription))
    (p : String × Subscription) (hp : p ∈ l) (hf : sendOk p.1 = false) :
    Event.sinkClose p.1 ∈ (resubLoop sendOk l).2 := by
  induction l with
  | nil => cases hp
  | cons q rest ih =>
    rcases List.mem_cons.1 hp with h | h
    · subst h
      simp [resubLoop, hf]
    · by_cases hs : sendOk q.1 = true <;> simp [resubLoop, hs, ih h]

theorem resubLoop_close_only (sendOk : String → Bool) (l : List (String × Subscription))
    (j : String) (h : Event.sinkClose j ∈ (resubLoop sendOk l).2) :
    (∃ sub, (j, sub) ∈ l) ∧ sendOk j = false := by
  induction l with
  | nil => cases h
  | cons q rest ih =>
    by_cases hs : sendOk q.1 = true
    · have hev : (resubLoop sendOk (q :: rest)).2
          = Event.frameSent (Frame.subscribeF q.1 q.2.query q.2.vars)
            :: (resubLoop sendOk rest).2 := by
        simp [resubLoop, hs]
      rw [hev] at h
      rcases List.mem_cons.1 h with hc | hc
      · cases hc
      · obtain ⟨⟨sub, hm⟩, hf⟩ := ih hc
        exact ⟨⟨sub, List.mem_cons_of_mem q hm⟩, hf⟩
    · have hev : (resubLoop sendOk (q :: rest)).2
          = Event.frameSent (Frame.subscribeF q.1 q.2.query q.2.vars)
            :: Event.sinkClose q.1 :: (resubLoop sendOk rest).2 := by
        simp [resubLoop, hs]
      rw [hev] at h
      rcases List.mem_cons.1 h with hc | hc
      · cases hc
      · rcases List.mem_cons.1 hc with hc2 | hc2
        · have hj : j = q.1 := by injection hc2
          subst hj
          refine ⟨⟨q.2, ?_⟩, by simpa using hs⟩
          exact List.mem_cons_self q rest
        · obtain ⟨⟨sub, hm⟩, hf⟩ := ih hc2
          exact ⟨⟨sub, List.mem_cons_of_mem q hm⟩, hf⟩

/-- Claim C3: `resubscribeAll` re-sends, for every record in the registry,
a subscribe frame whose query and variables are exactly the record's stored
query and variables; a record whose send succeeds stays registered, and a
record whose send fails gets its sink closed and is removed from the
registry while every other record is still processed (the frame of every
record is sent regardless of other records' failures). -/
theorem c3_resubscribe_all (st : ClientState) (sendOk : String → Bool)
    (id : String) (sub : Subscription) (hmem : (id, sub) ∈ st.subs) :
    Event.frameSent (Frame.subscribeF id sub.query sub.vars)
        ∈ (resubscribeAll st sendOk).2 ∧
    (sendOk id = true → (id, sub) ∈ (resubscribeAll st sendOk).1.subs) ∧
    (sendOk id = false →
      Event.sinkClose id ∈ (resubscribeAll st sendOk).2 ∧
      id ∉ (resubscribeAll st sendOk).1.subs.map Prod.fst) := by
  refine ⟨resubLoop_frame sendOk st.subs (id, sub) hmem, ?_, ?_⟩
  · intro hs
    show (id, sub) ∈ (resubLoop sendOk st.subs).1
    rw [resubLoop_fst]
    exact List.mem_filter.2 ⟨hmem, hs⟩
  · intro hf
    refine ⟨resubLoop_close sendOk st.subs (id, sub) hmem hf, ?_⟩
    intro hmm
    show False
    have : (resubscribeAll st sendOk).1.subs = (resubLoop sendOk st.subs).1 := rfl
    rw [this, resubLoop_fst] at hmm
    obtain ⟨q, hq, hfst⟩ := List.mem_map.1 hmm
    have hq2 := List.mem_filter.1 hq
    rw [hfst] at hq2
    rw [hq2.2] at hf
    cases hf

/-- Concrete instance of C3: with two subscriptions and the send for id 1
failing, the frames of both records are sent, sink 1 is closed and removed,
and record 2 survives. -/
theorem c3_witness :
    Event.frameSent (Frame.subscribeF "1" recA.query recA.vars)
        ∈ (resubscribeAll twoSubState failFirstSend).2 ∧
    Event.sinkClose "1" ∈ (resubscribeAll twoSubState failFirstSend).2 ∧
    "1" ∉ (resubscribeAll twoSubState failFirstSend).1.subs.map Prod.fst ∧
    ("2", recB) ∈ (resubscribeAll twoSubState failFirstSend).1.subs :=
  ⟨(c3_resubscribe_all twoSubState failFirstSend "1" recA (by decide)).1,
   ((c3_resubscribe_all twoSubState failFirstSend "1" recA (by decide)).2.2 (by decide)).1,
   ((c3_resubscribe_all twoSubState failFirstSend "1" recA (by decide)).2.2 (by decide)).2,
   (c3_resubscribe_all twoSubState failFirstSend "2" recB (by decide)).2.1 (by decide)⟩

/-! ## Claim C4 -/

theorem openWebSocket_no_auth (st : ClientState) (d i : Bool) :
    Event.authHandlerCalled ∉ (openWebSocket st d i).2.2 := by
  unfold openWebSocket
  split
  · simp
  · split
    · simp
    · split <;> simp

theorem resubLoop_no_auth (sendOk : String → Bool) (l : List (String × Subscription)) :
    Event.authHandlerCalled ∉ (resubLoop sendOk l).2 := by
  induction l with
  | nil => simp [resubLoop]
  | cons q rest ih =>
    by_cases hs : sendOk q.1 = true <;> simp [resubLoop, hs, ih]

theorem reconnectGo_no_auth (attempts : List (Bool × Bool)) :
    ∀ (st : ClientState) (resubOk : String → Bool),
      Event.authHandlerCalled ∉ (reconnectGo st attempts resubOk).2 := by
  induction attempts with
  | nil =>
    intro st resubOk
    simp [reconnectGo]
  | cons a rest ih =>
    intro st resubOk
    obtain ⟨d, i⟩ := a
    rcases h : openWebSocket st d i with ⟨st1, res, evs⟩
    have hevs : Event.authHandlerCalled ∉ evs := by
      have h2 := openWebSocket_no_auth st d i
      rw [h] at h2
      exact h2
    cases res with
    | ok u =>
      simp only [reconnectGo, h]
      intro hmem
      rcases List.mem_cons.1 hmem with hc | hc
      · cases hc
      · rcases List.mem_append.1 hc with h1 | h1
        · exact hevs h1
        · exact resubLoop_no_auth resubOk st1.subs h1
    | error e =>
      simp only [reconnectGo, h]
      intro hmem
      rcases List.mem_cons.1 hmem with hc | hc
      · cases hc
      · rcases List.mem_append.1 hc with h1 | h1
        · exact hevs h1
        · exact ih st1 resubOk h1

theorem reconnect_no_auth (st : ClientState) (attempts : List (Bool × Bool))
    (resubOk : String → Bool) :
    Event.authHandlerCalled ∉ (reconnect st attempts resubOk).2 := by
  unfold reconnect
  split
  · simp
  · exact reconnectGo_no_auth attempts st resubOk

/-- Claim C4: a read failure carrying close code 4401 or 4403 with an
auth-error handler registered invokes the handler exactly once, as the very
first recovery event, before any reconnect attempt; a normal-closure (1000)
or going-away (1001) close code produces no events at all — no handler
invocation and no reconnect. -/
theorem c4_read_error_dispatch (st : ClientState) (attempts : List (Bool × Bool))
    (resubOk : String → Bool) :
    (∀ code : Nat, st.authErrorHandlerSet = true → (code = 4401 ∨ code = 4403) →
      ∃ evs', (handleReadError st (ReadErr.closeErr code) attempts resubOk).2
          = Event.authHandlerCalled :: evs' ∧
        Event.authHandlerCalled ∉ evs') ∧
    (∀ code : Nat, (code = 1000 ∨ code = 1001) →
      (handleReadError st (ReadErr.closeErr code) attempts resubOk).2 = []) := by
  constructor
  · intro code hset hcode
    have hc1 : isCloseCode (ReadErr.closeErr code) [1000, 1001] = false := by
      rcases hcode with h | h <;> subst h <;> rfl
    have hc2 : isCloseCode (ReadErr.closeErr code) [4401, 4403] = true := by
      rcases hcode with h | h <;> subst h <;> rfl
    refine ⟨(reconnect { st with wsConn := false } attempts resubOk).2, ?_, ?_⟩
    · simp [handleReadError, hc1, hc2, hset]
    · exact reconnect_no_auth { st with wsConn := false } attempts resubOk
  · intro code hcode
    have hc1 : isCloseCode (ReadErr.closeErr code) [1000, 1001] = true := by
      rcases hcode with h | h <;> subst h <;> rfl
    simp [handleReadError, hc1]

/-- Concrete instance of C4: with a registered handler, close code 4401
puts the handler invocation first and only once; close code 1000 produces
nothing. -/
theorem c4_witness :
    (∃ evs', (handleReadError authState (ReadErr.closeErr 4401) [] allSendOk).2
        = Event.authHandlerCalled :: evs' ∧
      Event.authHandlerCalled ∉ evs') ∧
    (handleReadError authState (ReadErr.closeErr 1000) [] allSendOk).2 = [] :=
  ⟨(c4_read_error_dispatch authState [] allSendOk).1 4401 rfl (Or.inl rfl),
   (c4_read_error_dispatch authState [] allSendOk).2 1000 (Or.inl rfl)⟩

/-! ## Claim C10 -/

theorem closeWebSocket_no_close (st : ClientState) (j : String) :
    Event.sinkClose j ∉ (closeWebSocket st).2 := by
  unfold closeWebSocket
  split <;> simp

theorem cleanupSubscription_no_close (st : ClientState) (id j : String) :
    Event.sinkClose j ∉ (cleanupSubscription st id).2 := by
  have hc : cleanupSubscription st id
      = if (removeSub st.subs id).isEmpty = true
          then closeWebSocket { st with subs := removeSub st.subs id }
          else ({ st with subs := removeSub st.subs id }, []) := rfl
  rw [hc]
  split
  · exact closeWebSocket_no_close _ j
  · simp

theorem openWebSocket_no_close (st : ClientState) (d i : Bool) (j : String) :
    Event.sinkClose j ∉ (openWebSocket st d i).2.2 := by
  unfold openWebSocket
  split
  · simp
  · split
    · simp
    · split <;> simp

theorem openWebSocket_subs (st : ClientState) (d i : Bool) :
    (openWebSocket st d i).1.subs = st.subs := by
  unfold openWebSocket
  split
  · rfl
  · split
    · rfl
    · split <;> rfl

theorem subscribeBody_no_close (st : ClientState) (q : String)
    (v : List (String × String)) (s : Bool) (evs0 : List Event) (j : String)
    (h0 : Event.sinkClose j ∉ evs0) :
    Event.sinkClose j ∉ (subscribeBody st q v s evs0).2.2 := by
  unfold subscribeBody
  split
  · intro hm
    rcases List.mem_append.1 hm with h1 | h1
    · exact h0 h1
    · simp at h1
  · intro hm
    rcases List.mem_append.1 hm with h1 | h1
    · rcases List.mem_append.1 h1 with h2 | h2
      · exact h0 h2
      · simp at h2
    · exact cleanupSubscription_no_close _ _ j h1

theorem subscribe_no_close (st : ClientState) (q : String)
    (v : List (String × String)) (d i s : Bool) (j : String) :
    Event.sinkClose j ∉ (subscribe st q v d i s).2.2 := by
  unfold subscribe
  split
  · exact subscribeBody_no_close st q v s [] j (by simp)
  · rcases ho : openWebSocket st d i with ⟨st1, res, evs⟩
    have hevs : Event.sinkClose j ∉ evs := by
      have h2 := openWebSocket_no_close st d i j
      rw [ho] at h2
      exact h2
    cases res with
    | ok u =>
      simp only [ho]
      exact subscribeBody_no_close st1 q v s evs j hevs
    | error e =>
      simp only [ho]
      exact hevs

theorem unsubscribe_no_close (st : ClientState) (id : String) (s : Bool) (j : String) :
    Event.sinkClose j ∉ (unsubscribe st id s).2.2 := by
  unfold unsubscribe
  split
  · simp
  · split <;> simp

theorem handleComplete_events_none (st : ClientState) (id : String)
    (hl : lookupSub st.subs id = none) :
    (handleComplete st id).2
      = if st.subs.isEmpty = true then (closeWebSocket st).2 else [] := by
  by_cases he : st.subs.isEmpty = true <;> simp [handleComplete, hl, he]

theorem handleComplete_events_some (st : ClientState) (id : String) (sub : Subscription)
    (hl : lookupSub st.subs id = some sub) :
    (handleComplete st id).2
      = Event.sinkClose id ::
        (if (removeSub st.subs id).isEmpty = true
          then (closeWebSocket { st with subs := removeSub st.subs id }).2 else []) := by
  by_cases he : (removeSub st.subs id).isEmpty = true <;> simp [handleComplete, hl, he]

theorem handleMessage_close (st : ClientState) (f : ServerFrame) (d : Bool) (j : String)
    (h : Event.sinkClose j ∈ (handleMessage st f d).2) :
    f = ServerFrame.completeSF j ∧ (lookupSub st.subs j).isSome = true := by
  cases f with
  | nextF id p =>
    exfalso
    have hh : Event.sinkClose j ∈ (handleNext st id p d).2 := h
    rcases hl : lookupSub st.subs id with _ | sub
    · have he : handleNext st id p d = (st, []) := by simp [handleNext, hl]
      rw [he] at hh
      simp at hh
    · by_cases hd : d = true
      · have he : handleNext st id p d
            = (st, [Event.sinkDeliver id (SinkValue.dataV p)]) := by
          simp [handleNext, hl, hd]
        rw [he] at hh
        simp at hh
      · have he : handleNext st id p d = (st, []) := by simp [handleNext, hl, hd]
        rw [he] at hh
        simp at hh
  | errorF id p =>
    exfalso
    have hh : Event.sinkClose j ∈ (handleError st id p).2 := h
    rcases hl : lookupSub st.subs id with _ | sub
    · have he : handleError st id p = (st, []) := by simp [handleError, hl]
      rw [he] at hh
      simp at hh
    · have he : handleError st id p
          = (st, [Event.sinkDeliver id (SinkValue.errV p)]) := by
        simp [handleError, hl]
      rw [he] at hh
      simp at hh
  | completeSF id =>
    show ServerFrame.completeSF id = ServerFrame.completeSF j ∧ _
    have hh : Event.sinkClose j ∈ (handleComplete st id).2 := h
    rcases hl : lookupSub st.subs id with _ | sub
    · exfalso
      rw [handleComplete_events_none st id hl] at hh
      split at hh
      · exact closeWebSocket_no_close st j hh
      · simp at hh
    · rw [handleComplete_events_some st id sub hl] at hh
      rcases List.mem_cons.1 hh with hc | hc
      · have hj : j = id := by injection hc
        subst hj
        exact ⟨rfl, by simp [hl]⟩
      · exfalso
        split at hc
        · exact closeWebSocket_no_close _ j hc
        · simp at hc
  | connectionAck =>
    exfalso
    simp [handleMessage] at h
  | pingF =>
    exfalso
    simp [handleMessage] at h
  | pongSF =>
    exfalso
    simp [handleMessage] at h
  | otherF t =>
    exfalso
    simp [handleMessage] at h

theorem reconnectGo_close (attempts : List (Bool × Bool)) :
    ∀ (st : ClientState) (resubOk : String → Bool) (j : String),
      Event.sinkClose j ∈ (reconnectGo st attempts resubOk).2 →
      (∃ sub, (j, sub) ∈ st.subs) ∧ resubOk j = false := by
  induction attempts with
  | nil =>
    intro st r j h
    simp [reconnectGo] at h
  | cons a rest ih =>
    intro st r j h
    obtain ⟨d, i⟩ := a
    rcases ho : openWebSocket st d i with ⟨st1, res, evs⟩
    have hsubs : st1.subs = st.subs := by
      have h2 := openWebSocket_subs st d i
      rw [ho] at h2
      exact h2
    have hevs : Event.sinkClose j ∉ evs := by
      have h2 := openWebSocket_no_close st d i j
      rw [ho] at h2
      exact h2
    cases res with
    | ok u =>
      simp only [reconnectGo, ho] at h
      rcases List.mem_cons.1 h with hc | hc
      · cases hc
      · rcases List.mem_append.1 hc with h1 | h1
        · exact absurd h1 hevs
        · have h3 := resubLoop_close_only r st1.subs j h1
          rw [hsubs] at h3
          exact h3
    | error e =>
      simp only [reconnectGo, ho] at h
      rcases List.mem_cons.1 h with hc | hc
      · cases hc
      · rcases List.mem_append.1 hc with h1 | h1
        · exact absurd h1 hevs
        · have h3 := ih st1 r j h1
          rw [hsubs] at h3
          exact h3

theorem handleReadError_events (st : ClientState) (e : ReadErr)
    (att : List (Bool × Bool)) (res : String → Bool) :
    (handleReadError st e att res).2 =
      if isCloseCode e [1000, 1001] = true then []
      else ((if isCloseCode e [4401, 4403] = true then
              (if st.authErrorHandlerSet = true then [Event.authHandlerCalled] else [])
            else []) ++ (reconnect { st with wsConn := false } att res).2) := by
  by_cases h1 : isCloseCode e [1000, 1001] = true <;>
    by_cases h2 : isCloseCode e [4401, 4403] = true <;>
    by_cases h3 : st.authErrorHandlerSet = true <;>
    simp [handleReadError, h1, h2, h3]

theorem handleReadError_close (st : ClientState) (e : ReadErr)
    (att : List (Bool × Bool)) (res : String → Bool) (j : String)
    (h : Event.sinkClose j ∈ (handleReadError st e att res).2) :
    (∃ sub, (j, sub) ∈ st.subs) ∧ res j = false := by
  rw [handleReadError_events] at h
  by_cases h1 : isCloseCode e [1000, 1001] = true
  · rw [if_pos h1] at h
    simp at h
  · rw [if_neg h1] at h
    rcases List.mem_append.1 h with hc | hc
    · exfalso
      by_cases h2 : isCloseCode e [4401, 4403] = true <;>
        by_cases h3 : st.authErrorHandlerSet = true <;>
        simp [h2, h3] at hc
    · have hrg : reconnect { st with wsConn := false } att res
          = reconnectGo { st with wsConn := false } att res := by
        simp [reconnect]
      rw [hrg] at hc
      exact reconnectGo_close att { st with wsConn := false } res j hc

/-- Claim C10: unsubscribe never closes a subscription's sink; neither do
subscribe nor closing the connection.  A sink-close event only ever comes
from the pump handling a server complete frame for that registered id, or
from a resubscription whose re-send failed for that registered id (also
when the resubscription runs inside read-error recovery). -/
theorem c10_sink_close_provenance :
    (∀ (st : ClientState) (id : String) (s : Bool) (j : String),
      Event.sinkClose j ∉ (unsubscribe st id s).2.2) ∧
    (∀ (st : ClientState) (q : String) (v : List (String × String)) (d i s : Bool)
      (j : String), Event.sinkClose j ∉ (subscribe st q v d i s).2.2) ∧
    (∀ (st : ClientState) (j : String), Event.sinkClose j ∉ (closeWebSocket st).2) ∧
    (∀ (st : ClientState) (f : ServerFrame) (d : Bool) (j : String),
      Event.sinkClose j ∈ (handleMessage st f d).2 →
      f = ServerFrame.completeSF j ∧ (lookupSub st.subs j).isSome = true) ∧
    (∀ (st : ClientState) (sendOk : String → Bool) (j : String),
      Event.sinkClose j ∈ (resubscribeAll st sendOk).2 →
      (∃ sub, (j, sub) ∈ st.subs) ∧ sendOk j = false) ∧
    (∀ (st : ClientState) (e : ReadErr) (att : List (Bool × Bool))
      (res : String → Bool) (j : String),
      Event.sinkClose j ∈ (handleReadError st e att res).2 →
      (∃ sub, (j, sub) ∈ st.subs) ∧ res j = false) :=
  ⟨unsubscribe_no_close,
   subscribe_no_close,
   closeWebSocket_no_close,
   handleMessage_close,
   fun st sendOk j h => resubLoop_close_only sendOk st.subs j h,
   handleReadError_close⟩

/-- Concrete instance of C10: a successful unsubscribe of id 1 emits no
close for its sink, and the concrete sink-close produced by a complete
frame for id 1 is attributed to exactly that frame and registration. -/
theorem c10_witness :
    Event.sinkClose "1" ∉ (unsubscribe oneSubState "1" true).2.2 ∧
    (ServerFrame.completeSF "1" = ServerFrame.completeSF "1" ∧
      (lookupSub oneSubState.subs "1").isSome = true) :=
  ⟨c10_sink_close_provenance.1 oneSubState "1" true "1",
   c10_sink_close_provenance.2.2.2.1 oneSubState (ServerFrame.completeSF "1") true "1"
     (by decide)⟩

/-! ## Claim C1 -/

/-- Claim C1 counterexample: after a successful subscribe call (issued id 1)
followed by an unsubscribe call for id 1 whose stop-frame send fails, the
registry still holds id 1.  The claim counts the subscribe call as matched
by the unsubscribe call and so predicts registry size 0, but the size is 1:
`unsubscribe` leaves the record registered when its send fails. -/
theorem c1_counterexample :
    (runOps initialState c1ops).2 = [OpResult.subOk "1", OpResult.unsubErr "1"] ∧
    (runOps initialState c1ops).1.subs.map Prod.fst = ["1"] := by decide

/-- Claim C1 (amended): for every sequence of subscribe and unsubscribe
calls interleaved with server-sent complete frames, the registry's key list
is exactly the list of ids of SUCCESSFUL subscribe calls not yet matched by
a SUCCESSFUL unsubscribe or a server-sent complete that removed them; in
particular the registry size equals the number of such open subscribe
calls. -/
theorem c1_registry_size (ops : List Op) :
    (runOps initialState ops).1.subs.map Prod.fst = openIds (runOps initialState ops).2 ∧
    (runOps initialState ops).1.subs.length = (openIds (runOps initialState ops).2).length := by
  have hb0 : KeysBounded initialState.subs initialState.counter := by
    intro id hm
    simp [initialState] at hm
  have h := runOps_keys ops initialState hb0
  have hkeys : (runOps initialState ops).1.subs.map Prod.fst
      = openIds (runOps initialState ops).2 := h.2
  refine ⟨hkeys, ?_⟩
  have h2 := congrArg List.length hkeys
  rwa [List.length_map] at h2

end GraphqlToGo
